import Mathlib

/-
Verification development for the guard-agent program (Milestone_3.py).

The program is a single-file room-guard agent: it loads trusted face
embeddings at startup, watches a camera while armed, and runs a
three-level verbal escalation protocol against unknown faces.  The
definitions below are a shallow embedding of the relevant Python code:
pure functions become Lean functions, fallible operations return
Except, and the surveillance loop is modelled as explicit state
passing over a list of frame events.  All strings in play are ASCII,
so Char.toLower coincides with the Python str.lower used by the code.
-/

namespace GuardAgent

/-- Py semantics of list/str startswith on char lists: the first list
is the pattern, the second the subject. -/
def startsWithB : List Char → List Char → Bool
  | [], _ => true
  | _ :: _, [] => false
  | p :: ps, c :: cs => (p = c) && startsWithB ps cs

/-- Py semantics of the `in` operator on strings, over char lists:
`occursInB pat s` holds iff pat occurs as a contiguous run inside s
(the empty pattern occurs in every string). -/
def occursInB (pat : List Char) : List Char → Bool
  | [] => pat.isEmpty
  | c :: cs => startsWithB pat (c :: cs) || occursInB pat cs

/-- Python `pat in s` for strings. -/
def strIn (pat s : String) : Bool := occursInB pat.toList s.toList

/-- Python `s.endswith(pat)`. -/
def endsWithB (s pat : String) : Bool :=
  startsWithB pat.toList.reverse s.toList.reverse

/-- Python `s.lower()` for the ASCII strings this program handles. -/
def lowerStr (s : String) : String := String.mk (s.data.map Char.toLower)

/-- The ASCII apostrophe character (code point 39), used in two of the
keyword strings of the source. -/
def apostropheChar : Char := Char.ofNat 39

/-- The source keyword string spelled i-apostrophe-m-space-l-e-a-v-i-n-g. -/
def kwImLeaving : String := "i" ++ String.singleton apostropheChar ++ "m leaving"

/-- The source keyword string spelled i-apostrophe-m-space-n-o-t. -/
def kwImNot : String := "i" ++ String.singleton apostropheChar ++ "m not"

/-- Cooperative keyword list of judge_reply (Milestone_3.py line 146). -/
def cooperative_kws : List String :=
  ["sorry", "i will leave", "i will go", "i will get out", kwImLeaving]

/-- Defiant keyword list of judge_reply (Milestone_3.py line 150). -/
def defiant_kws : List String :=
  ["no", "i will not", kwImNot, "none of your business", "refuse"]

/-- judge_reply (Milestone_3.py lines 135-158).  Python `if not text`
on a string is the emptiness test; keyword matching is substring
containment on the lower-cased transcript. -/
def judge_reply (text : String) : String :=
  if text = "" then "no_response"
  else if cooperative_kws.any (fun kw => strIn kw (lowerStr text)) then "ok"
  else if defiant_kws.any (fun kw => strIn kw (lowerStr text)) then "refuse"
  else if (lowerStr text).length < 3 then "no_response"
  else "suspicious"

/-- The classifier exactly as the claim words it: cooperative match,
then defiant match, then the length test, otherwise suspicious, with
no leading emptiness test.  Kept separate so the refinement of the
source function against the claimed precedence can be stated. -/
def judge_replySpec (text : String) : String :=
  if cooperative_kws.any (fun kw => strIn kw (lowerStr text)) then "ok"
  else if defiant_kws.any (fun kw => strIn kw (lowerStr text)) then "refuse"
  else if (lowerStr text).length < 3 then "no_response"
  else "suspicious"

/-- Observable trace of one escalate_interaction invocation: the
returned dict (action, level, transcript) plus the side effects the
run performed — how many times play_alarm ran and the text contents
written to the evidence sink, plus which levels executed. -/
structure EscTrace where
  action : String
  level : Nat
  transcript : String
  alarms : Nat
  evidenceTexts : List String
  levelsRun : List Nat
deriving DecidableEq

/-- The evidence line written for one level in the unresolved-at-3
branch: Python f-string L{lev}: {txt} with a newline. -/
def tagLine (p : Nat × String) : String :=
  "L" ++ toString p.1 ++ ": " ++ p.2 ++ "\n"

/-- The whole evidence text of the unresolved-at-3 branch: the tagged
lines of all recorded levels, in order. -/
def evidenceConcat (acc : List (Nat × String)) : String :=
  String.join (acc.map tagLine)

/-- The for-loop of escalate_interaction (Milestone_3.py lines
170-237).  `acc` is the transcripts list, `pending` the levels not yet
executed paired with the transcript the listen step will produce at
each, `run` the levels executed so far.  Exhausting the loop reaches
the level-3 fallback, which fires the alarm and writes the tagged
concatenation of all recorded transcripts. -/
def escLoop : List (Nat × String) → List (Nat × String) → List Nat → EscTrace
  | acc, [], run =>
    { action := "record_and_warn", level := 3,
      transcript := String.intercalate "|" (acc.map Prod.snd),
      alarms := 1, evidenceTexts := [evidenceConcat acc], levelsRun := run }
  | acc, (lvl, r) :: rest, run =>
    if judge_reply r = "ok" then
      { action := "stand_down", level := lvl, transcript := r,
        alarms := 0, evidenceTexts := [], levelsRun := run ++ [lvl] }
    else if judge_reply r = "refuse" then
      { action := "record_and_warn", level := lvl, transcript := r,
        alarms := 1, evidenceTexts := [r], levelsRun := run ++ [lvl] }
    else escLoop (acc ++ [(lvl, r)]) rest (run ++ [lvl])

/-- escalate_interaction (Milestone_3.py lines 160-237), as a function
of the transcript each levels listen step would yield if reached
(listen failures are already normalized to the empty string by the
source, lines 182-196). -/
def escalate_interaction (r1 r2 r3 : String) : EscTrace :=
  escLoop [] [(1, r1), (2, r2), (3, r3)] []

/-- A face embedding; the numeric content is irrelevant to the claims,
distances are modelled over ℚ. -/
abbrev Embedding := List ℚ

/-- FACE_MATCH_THRESHOLD = 0.45 (Milestone_3.py line 43). -/
def FACE_MATCH_THRESHOLD : ℚ := 45 / 100

/-- The dynamic value bound to `distances` in main_loop line 347: an
ndarray when face_distance ran, a plain Python list when the trusted
set is empty and the ternary produced the literal []. -/
inductive PyVal where
  | ndarray (xs : List ℚ)
  | plain (xs : List ℚ)
deriving DecidableEq

/-- The attribute access `distances.size` (main_loop line 351):
defined on an ndarray; on a plain list it raises AttributeError. -/
def PyVal.sizeAttr : PyVal → Except String Nat
  | .ndarray xs => .ok xs.length
  | .plain _ => .error "AttributeError: list object has no attribute size"

/-- The element list behind a PyVal. -/
def PyVal.toVals : PyVal → List ℚ
  | .ndarray xs => xs
  | .plain xs => xs

/-- np.argmin: index of the first minimal element (0 on the empty
list, which the source never reaches because of the size guard). -/
def argminAux : List ℚ → Nat → Nat → ℚ → Nat
  | [], _, best, _ => best
  | y :: ys, i, best, v =>
    if y < v then argminAux ys (i + 1) i y else argminAux ys (i + 1) best v

/-- np.argmin over the modelled distance list. -/
def argminIdx : List ℚ → Nat
  | [] => 0
  | x :: xs => argminAux xs 1 0 x

/-- The per-face matching step of main_loop (Milestone_3.py lines
347-355).  `fd` is the external face_recognition.face_distance
collaborator; it is only invoked when the trusted set is non-empty,
exactly as the source ternary does.  Indexing with the argmin index is
in range whenever the size guard passed, so List.getD loses nothing;
trusted_names is loaded in lockstep with trusted_encodings so the
name lookup is likewise in range. -/
def frame_match (fd : List Embedding → Embedding → List ℚ)
    (trusted_encodings : List Embedding) (trusted_names : List String)
    (enc : Embedding) : Except String String :=
  let distances : PyVal :=
    if trusted_encodings.isEmpty then PyVal.plain []
    else PyVal.ndarray (fd trusted_encodings enc)
  match distances.sizeAttr with
  | Except.error e => Except.error e
  | Except.ok n =>
    if 0 < n then
      let xs := distances.toVals
      let idx := argminIdx xs
      if xs.getD idx 0 < FACE_MATCH_THRESHOLD then
        Except.ok (trusted_names.getD idx "Unknown")
      else Except.ok "Unknown"
    else Except.ok "Unknown"

/-- One enrollment file of the trusted_faces directory: its filename
and the embedding array np.load yields from it. -/
structure EnrollFile where
  fname : String
  arrs : List Embedding
deriving DecidableEq

/-- os.path.splitext stem for the filenames the loader accepts: a
name ending in the four characters .npy with a non-empty stem loses
exactly that extension. -/
def stemOf (s : String) : String := s.dropRight 4

/-- The startup enrollment loading (Milestone_3.py lines 56-68).  The
directory is `none` when absent, in which case os.listdir raises
FileNotFoundError and startup dies; otherwise every file ending in
.npy contributes each of its embeddings, each paired with the
filename stem as its name. -/
def loadTrusted : Option (List EnrollFile) →
    Except String (List Embedding × List String)
  | none => Except.error "FileNotFoundError"
  | some files =>
    Except.ok (files.foldl
      (fun acc f =>
        if endsWithB f.fname ".npy" then
          (acc.1 ++ f.arrs, acc.2 ++ f.arrs.map (fun _ => stemOf f.fname))
        else acc)
      ([], []))

/-- ESCALATION_COOLDOWN = 10 seconds (Milestone_3.py line 46). -/
def ESCALATION_COOLDOWN : ℚ := 10

/-- One armed frame of main_loop in which a face was detected:
`verdict` is the name the matching step produced, `tCheck` the
time.time() value read at the cooldown test (line 364), `tSet` the
time.time() value stored into last_escalation_time (line 366). -/
structure FrameEvent where
  verdict : String
  tCheck : ℚ
  tSet : ℚ
deriving DecidableEq

/-- The cooldown-gated trigger logic of main_loop (lines 362-372),
folded over the frames: an escalation starts on a frame iff the
verdict is Unknown and the check-time exceeds the stored timestamp by
more than the cooldown, in which case last_escalation_time becomes
tSet — the recorded start time of that escalation, which the returned
list collects. -/
def runFrames : ℚ → List FrameEvent → List ℚ
  | _, [] => []
  | last, e :: es =>
    if e.verdict = "Unknown" ∧ ESCALATION_COOLDOWN < e.tCheck - last then
      e.tSet :: runFrames e.tSet es
    else runFrames last es

/-- Clock sanity of a frame sequence: each frame reads its check time
no earlier than `t`, stores a time no earlier than it checked, and
hands its store time on as the bound for the rest — time.time() is
monotone across the successive calls the loop makes. -/
def wellTimedB : ℚ → List FrameEvent → Bool
  | _, [] => true
  | t, e :: es =>
    decide (t ≤ e.tCheck) && (decide (e.tCheck ≤ e.tSet) && wellTimedB e.tSet es)

/-- Helper: the source function agrees everywhere with the classifier
as the claim orders its rules; the leading emptiness test of the
source is redundant because the empty transcript matches no keyword
and has length below 3. -/
theorem judge_reply_eq_spec (s : String) : judge_reply s = judge_replySpec s := by
  by_cases h : s = ""
  · subst h; decide
  · unfold judge_reply judge_replySpec
    rw [if_neg h]

/-- Claim C4: judge_reply is a deterministic total function into the
four judgement strings, it is decided by the claimed first-match
precedence (cooperative, then defiant, then the length test, then
suspicious), and it sends the five sample transcripts of the claim to
the stated judgements. -/
theorem judge_reply_deterministic_total :
    (∀ s, judge_reply s = judge_replySpec s ∧
      (judge_reply s = "ok" ∨ judge_reply s = "refuse" ∨
        judge_reply s = "suspicious" ∨ judge_reply s = "no_response")) ∧
    judge_reply ("I" ++ String.singleton apostropheChar ++ "m sorry, I will leave") = "ok" ∧
    judge_reply "no, none of your business" = "refuse" ∧
    judge_reply "" = "no_response" ∧
    judge_reply "hm" = "no_response" ∧
    judge_reply "I live upstairs" = "suspicious" := by
  refine ⟨fun s => ⟨judge_reply_eq_spec s, ?_⟩,
    by decide, by decide, by decide, by decide, by decide⟩
  unfold judge_reply
  split_ifs <;> simp

/-- Claim C10: a transcript matching no cooperative keyword whose
lower-cased form contains the two-character run n-o anywhere — also
inside a longer word — is classified refuse, because defiant matching
is plain substring containment and the first defiant keyword is that
two-character string. -/
theorem judge_reply_refuse_on_no (s : String)
    (hc : cooperative_kws.all (fun kw => !(strIn kw (lowerStr s))) = true)
    (hn : strIn "no" (lowerStr s) = true) :
    judge_reply s = "refuse" := by
  have hne : s ≠ "" := by
    intro h; subst h; exact absurd hn (by decide)
  have hcoop : cooperative_kws.any (fun kw => strIn kw (lowerStr s)) = false := by
    rw [List.any_eq_false]
    intro kw hkw
    have h2 := List.all_eq_true.mp hc kw hkw
    simpa using h2
  have hdef : defiant_kws.any (fun kw => strIn kw (lowerStr s)) = true :=
    List.any_eq_true.mpr ⟨"no", by simp [defiant_kws], hn⟩
  unfold judge_reply
  rw [if_neg hne, if_neg (by simp [hcoop]), if_pos (by simp [hdef])]

/-- Witness for Claim C10 at the concrete transcript i-space-know-space-him:
the run n-o occurs only inside the word know, no cooperative keyword
occurs, and the classification is refuse. -/
theorem judge_reply_refuse_on_no_w : judge_reply "i know him" = "refuse" :=
  judge_reply_refuse_on_no "i know him" (by decide) (by decide)

/-- Claim C6: every escalate_interaction invocation yields one trace
whose action is one of the two outcome strings, fires the alarm at
most once, writes evidence at most once, fires and writes neither
unless the outcome is record_and_warn, and executes the levels as a
prefix of 1, 2, 3 in order with none skipped or repeated. -/
theorem escalate_invariants (r1 r2 r3 : String) :
    ((escalate_interaction r1 r2 r3).action = "stand_down" ∨
      (escalate_interaction r1 r2 r3).action = "record_and_warn") ∧
    (escalate_interaction r1 r2 r3).alarms ≤ 1 ∧
    (escalate_interaction r1 r2 r3).evidenceTexts.length ≤ 1 ∧
    ((escalate_interaction r1 r2 r3).alarms = 0 ∧
        (escalate_interaction r1 r2 r3).evidenceTexts = [] ∨
      (escalate_interaction r1 r2 r3).action = "record_and_warn") ∧
    ((escalate_interaction r1 r2 r3).levelsRun = [1] ∨
      (escalate_interaction r1 r2 r3).levelsRun = [1, 2] ∨
      (escalate_interaction r1 r2 r3).levelsRun = [1, 2, 3]) := by
  unfold escalate_interaction
  simp only [escLoop]
  split_ifs <;> simp

/-- Claim C7: when level 1 resolves neither ok nor refuse and the
level-2 reply is judged ok, the run stands down at level 2 with that
reply as transcript, fires no alarm, writes no evidence, and never
executes level 3. -/
theorem escalate_ok_at_two (r1 r2 r3 : String)
    (h1 : judge_reply r1 ≠ "ok") (h1r : judge_reply r1 ≠ "refuse")
    (h2 : judge_reply r2 = "ok") :
    escalate_interaction r1 r2 r3 =
      { action := "stand_down", level := 2, transcript := r2,
        alarms := 0, evidenceTexts := [], levelsRun := [1, 2] } := by
  unfold escalate_interaction
  simp only [escLoop]
  rw [if_neg h1, if_neg h1r, if_pos h2]
  simp

/-- Witness for Claim C7: level 1 hears a suspicious reply, level 2
hears the cooperative keyword, and the run stands down at level 2. -/
theorem escalate_ok_at_two_w :
    escalate_interaction "i live upstairs" "sorry" "" =
      { action := "stand_down", level := 2, transcript := "sorry",
        alarms := 0, evidenceTexts := [], levelsRun := [1, 2] } :=
  escalate_ok_at_two "i live upstairs" "sorry" "" (by decide) (by decide) (by decide)

/-- Counterexample for Claim C1: with suspicious replies abcd and efgh
at levels 1 and 2 and the refused reply n-o at level 3, the run does
end record-and-warn at level 3 with one alarm and one evidence write,
but the single evidence text is only the level-3 transcript, and it
does not contain the level-1 text abcd — contradicting the claimed
transcript containing the text of all three levels. -/
theorem escalate_refuse_at_three_cex :
    escalate_interaction "abcd" "efgh" "no" =
      { action := "record_and_warn", level := 3, transcript := "no",
        alarms := 1, evidenceTexts := ["no"], levelsRun := [1, 2, 3] } ∧
    strIn "abcd" "no" = false := by decide

/-- Claim C1 as amended: suspicious at levels 1 and 2 and refuse at
level 3 terminates record-and-warn at level 3, fires the alarm exactly
once and writes the evidence sink exactly once — but the evidence text
is the level-3 transcript alone, per the refuse branch of the source,
not a concatenation of all three levels. -/
theorem escalate_refuse_at_three (r1 r2 r3 : String)
    (h1 : judge_reply r1 = "suspicious") (h2 : judge_reply r2 = "suspicious")
    (h3 : judge_reply r3 = "refuse") :
    escalate_interaction r1 r2 r3 =
      { action := "record_and_warn", level := 3, transcript := r3,
        alarms := 1, evidenceTexts := [r3], levelsRun := [1, 2, 3] } := by
  unfold escalate_interaction
  simp only [escLoop]
  rw [h1, h2, h3]
  simp

/-- Witness for the amended Claim C1 at concrete suspicious replies
and a final refusal. -/
theorem escalate_refuse_at_three_w :
    escalate_interaction "i live upstairs" "i live upstairs" "no" =
      { action := "record_and_warn", level := 3, transcript := "no",
        alarms := 1, evidenceTexts := ["no"], levelsRun := [1, 2, 3] } :=
  escalate_refuse_at_three "i live upstairs" "i live upstairs" "no"
    (by decide) (by decide) (by decide)

/-- Claim C8: three timed-out levels (empty transcripts) reach the
unresolved-at-3 fallback: record-and-warn at level 3, one alarm, one
evidence write holding the tagged concatenation of all three level
transcripts, and a returned transcript that is their bar-joined form. -/
theorem escalate_all_timeouts :
    escalate_interaction "" "" "" =
      { action := "record_and_warn", level := 3, transcript := "||",
        alarms := 1, evidenceTexts := ["L1: \nL2: \nL3: \n"],
        levelsRun := [1, 2, 3] } := by decide

/-- Claim C2 (the source defect): with zero trusted embeddings and a
detected face, the matching step evaluates the size attribute of a
plain Python list and raises AttributeError instead of completing the
frame with the verdict Unknown. -/
theorem empty_trusted_frame_raises
    (fd : List Embedding → Embedding → List ℚ)
    (trusted_names : List String) (enc : Embedding) :
    frame_match fd [] trusted_names enc =
      Except.error "AttributeError: list object has no attribute size" := rfl

/-- Counterexample for Claim C3: with the enrollment directory absent,
startup loading raises FileNotFoundError rather than degrading to an
empty trusted list. -/
theorem missing_enroll_dir_fatal :
    loadTrusted none = Except.error "FileNotFoundError" := rfl

/-- Helper: folding the enrollment step over files none of which end
in .npy leaves the accumulator empty. -/
theorem trustedFoldEmpty (files : List EnrollFile)
    (h : ∀ f ∈ files, endsWithB f.fname ".npy" = false) :
    files.foldl
      (fun acc f =>
        if endsWithB f.fname ".npy" then
          (acc.1 ++ f.arrs, acc.2 ++ f.arrs.map (fun _ => stemOf f.fname))
        else acc)
      (([], []) : List Embedding × List String) = ([], []) := by
  induction files with
  | nil => rfl
  | cons f fs ih =>
    have hf := h f (List.mem_cons_self f fs)
    simp only [List.foldl_cons, hf, Bool.false_eq_true, if_false]
    exact ih (fun g hg => h g (List.mem_cons_of_mem f hg))

/-- Claim C3 as amended: when the enrollment directory exists but
holds no .npy embedding file, startup succeeds with an empty trusted
list (always-unknown mode); an absent directory, by contrast, is
fatal at startup. -/
theorem no_npy_files_empty_trusted (files : List EnrollFile)
    (h : ∀ f ∈ files, endsWithB f.fname ".npy" = false) :
    loadTrusted (some files) = Except.ok ([], []) := by
  simp only [loadTrusted]
  rw [trustedFoldEmpty files h]

/-- Witness for the amended Claim C3: a directory holding one file
that is not an embedding file loads an empty trusted list. -/
theorem no_npy_files_empty_trusted_w :
    loadTrusted (some [⟨"readme.txt", []⟩]) = Except.ok ([], []) :=
  no_npy_files_empty_trusted _ (by decide)

/-- Helper: every escalation start recorded by the cooldown-gated
loop lies strictly more than one cooldown beyond the timestamp held
when the fold began, as long as each frame stores a time no earlier
than it checked. -/
theorem runFrames_lb : ∀ (es : List FrameEvent) (t last : ℚ),
    wellTimedB t es = true →
    ∀ x ∈ runFrames last es, last + ESCALATION_COOLDOWN < x := by
  intro es
  induction es with
  | nil => intro t last _ x hx; simp [runFrames] at hx
  | cons e es ih =>
    intro t last hw x hx
    have hw' : (t ≤ e.tCheck) ∧ (e.tCheck ≤ e.tSet) ∧ wellTimedB e.tSet es = true := by
      simpa [wellTimedB, Bool.and_eq_true, decide_eq_true_eq] using hw
    have hC : (0 : ℚ) < ESCALATION_COOLDOWN := by norm_num [ESCALATION_COOLDOWN]
    by_cases hcnd : e.verdict = "Unknown" ∧ ESCALATION_COOLDOWN < e.tCheck - last
    · simp only [runFrames, if_pos hcnd] at hx
      rcases List.mem_cons.mp hx with h | h
      · subst h
        have h1 := hcnd.2
        have h2 := hw'.2.1
        linarith
      · have hx2 := ih e.tSet e.tSet hw'.2.2 x h
        have h1 := hcnd.2
        have h2 := hw'.2.1
        linarith
    · simp only [runFrames, if_neg hcnd] at hx
      exact ih e.tSet last hw'.2.2 x hx

/-- Claim C5: the loop starts an escalation only when the check time
exceeds the stored timestamp by more than the cooldown and records
the start time before invoking the engine (the shape of runFrames);
hence, under a monotone clock, any two recorded escalation starts are
separated by strictly more than ESCALATION_COOLDOWN seconds. -/
theorem cooldown_spacing (t last : ℚ) (es : List FrameEvent)
    (hw : wellTimedB t es = true) :
    (runFrames last es).Pairwise
      (fun a b => a + ESCALATION_COOLDOWN < b) := by
  induction es generalizing t last with
  | nil => simp [runFrames]
  | cons e es ih =>
    have hw' : (t ≤ e.tCheck) ∧ (e.tCheck ≤ e.tSet) ∧ wellTimedB e.tSet es = true := by
      simpa [wellTimedB, Bool.and_eq_true, decide_eq_true_eq] using hw
    by_cases hcnd : e.verdict = "Unknown" ∧ ESCALATION_COOLDOWN < e.tCheck - last
    · simp only [runFrames, if_pos hcnd]
      rw [List.pairwise_cons]
      exact ⟨fun b hb => runFrames_lb es e.tSet e.tSet hw'.2.2 b hb,
        ih e.tSet e.tSet hw'.2.2⟩
    · simp only [runFrames, if_neg hcnd]
      exact ih e.tSet last hw'.2.2

/-- Witness for Claim C5: two unknown-face frames eleven and twelve
seconds apart trigger two escalations whose recorded starts are more
than one cooldown apart. -/
theorem cooldown_spacing_w :
    (runFrames 0 [⟨"Unknown", 11, 11⟩, ⟨"Unknown", 22, 23⟩]).Pairwise
      (fun a b => a + ESCALATION_COOLDOWN < b) :=
  cooldown_spacing 0 0 [⟨"Unknown", 11, 11⟩, ⟨"Unknown", 22, 23⟩] (by decide)

end GuardAgent
